import Mathlib

/-!
Verification of the client-side task-orchestration logic of the WrenAI
home-thread page (`src/wren-ui/src/apollo/client/graphql/home.ts`, which
bundles the GraphQL documents together with the `HomeThread` page
component).  The data model follows the GraphQL fragments
(`CommonResponse`, `CommonError`, `CommonRecommendedQuestionsTask`) and
the reducers follow the `onCompleted` callbacks and `useEffect` bodies
of the component.
-/

/-- CommonError fragment: `{code, shortMessage, message, stacktrace}`. -/
structure CommonError where
  code : String
  shortMessage : String
  message : String
  stacktrace : String
  deriving Repr, DecidableEq

/-- A step of a ThreadResponse detail: `{summary, sql, cteName}`. -/
structure DetailStep where
  summary : String
  sql : String
  cteName : String
  deriving Repr, DecidableEq

/-- A saved view reference: `{id, name, statement, displayName}`. -/
structure ViewInfo where
  id : Int
  name : String
  statement : String
  displayName : String
  deriving Repr, DecidableEq

/-- ThreadResponse detail: `{sql, description, steps, view}` (CommonResponse fragment). -/
structure ThreadResponseDetail where
  sql : String
  description : String
  steps : List DetailStep
  view : Option ViewInfo
  deriving Repr, DecidableEq

/-- Response status values, from the data model of the design document
(§3: `status ∈ {pending, generating, finished, failed, stopped}`); the
GraphQL enum itself is defined outside the sources in scope. -/
inductive ResponseStatus where
  | pending
  | generating
  | finished
  | failed
  | stopped
  deriving Repr, DecidableEq

/-- ThreadResponse (CommonResponse fragment plus error):
`{id, question, status, detail?, error?}`. -/
structure ThreadResponse where
  id : Int
  question : String
  status : ResponseStatus
  detail : Option ThreadResponseDetail
  error : Option CommonError
  deriving Repr, DecidableEq

/-- Thread (conversation): `{id, sql, responses}` as returned by the
`Thread` query. -/
structure Thread where
  id : Int
  sql : String
  responses : List ThreadResponse
  deriving Repr, DecidableEq

/-- The `onCompleted` callback of `useCreateThreadResponseMutation`:
`responses: [...prev.thread.responses, nextResponse]` — appends the newly
created response at the end of the previous responses sequence. -/
def createThreadResponseOnCompleted (prev : Thread) (nextResponse : ThreadResponse) : Thread :=
  { prev with responses := prev.responses ++ [nextResponse] }

/-- The `onCompleted` callback of `useThreadResponseLazyQuery`:
`responses: prev.thread.responses.map(response => response.id === nextResponse.id ? nextResponse : response)`
— merges a polled update into the responses sequence by id. -/
def threadResponseOnCompleted (prev : Thread) (nextResponse : ThreadResponse) : Thread :=
  { prev with
    responses := prev.responses.map
      (fun response => if response.id = nextResponse.id then nextResponse else response) }

/-- Helper: the merge map is the identity on a list containing no entry
with the update's id. -/
lemma map_replace_eq_self_of_id_not_mem (l : List ThreadResponse) (u : ThreadResponse)
    (h : u.id ∉ l.map ThreadResponse.id) :
    l.map (fun response => if response.id = u.id then u else response) = l := by
  induction l with
  | nil => rfl
  | cons a t ih =>
      simp only [List.map_cons, List.mem_cons, not_or] at h ⊢
      have hne : a.id ≠ u.id := fun hc => h.1 hc.symm
      rw [if_neg hne, ih h.2]

/-- An operation applied to a thread's responses sequence: either the
`onCompleted` of a successful `createThreadResponse` call, or the
`onCompleted` of a polled `threadResponse` update. -/
inductive ThreadOp where
  | create (r : ThreadResponse)
  | merge (u : ThreadResponse)
  deriving Repr, DecidableEq

/-- Apply one operation to a thread. -/
def applyThreadOp (t : Thread) : ThreadOp → Thread
  | .create r => createThreadResponseOnCompleted t r
  | .merge u => threadResponseOnCompleted t u

/-- Apply a sequence of operations to a thread, left to right. -/
def applyThreadOps (t : Thread) (ops : List ThreadOp) : Thread :=
  ops.foldl applyThreadOp t

/-- Number of successful `createThreadResponse` calls in an operation
sequence. -/
def countCreates : List ThreadOp → Nat
  | [] => 0
  | .create _ :: rest => countCreates rest + 1
  | .merge _ :: rest => countCreates rest

/-- C2: for every merge of a polled thread-response update, the sequence
length is preserved; the entry at any position whose id differs from the
update's id is unchanged, and the entry at any position whose id matches
is replaced by the update — so order is unchanged and there is no
cross-contamination. -/
theorem merge_replaces_only_matching_id (t : Thread) (u : ThreadResponse) :
    (threadResponseOnCompleted t u).responses.length = t.responses.length ∧
    (∀ (i : Nat) (r : ThreadResponse), t.responses[i]? = some r →
      (r.id ≠ u.id → (threadResponseOnCompleted t u).responses[i]? = some r) ∧
      (r.id = u.id → (threadResponseOnCompleted t u).responses[i]? = some u)) := by
  constructor
  · simp [threadResponseOnCompleted]
  · intro i r hr
    constructor
    · intro hne
      simp [threadResponseOnCompleted, List.getElem?_map, hr, hne]
    · intro heq
      simp [threadResponseOnCompleted, List.getElem?_map, hr, heq]

/-- Witness for C2 at a concrete thread and update. -/
theorem merge_replaces_only_matching_id_witness :
    (threadResponseOnCompleted
        { id := 1, sql := "", responses :=
            [{ id := 7, question := "a", status := .finished, detail := none, error := none },
             { id := 8, question := "b", status := .pending, detail := none, error := none }] }
        { id := 8, question := "b", status := .finished, detail := none, error := none }).responses[0]? =
      some { id := 7, question := "a", status := .finished, detail := none, error := none } :=
  ((merge_replaces_only_matching_id
      { id := 1, sql := "", responses :=
          [{ id := 7, question := "a", status := .finished, detail := none, error := none },
           { id := 8, question := "b", status := .pending, detail := none, error := none }] }
      { id := 8, question := "b", status := .finished, detail := none, error := none }).2 0
      { id := 7, question := "a", status := .finished, detail := none, error := none }
      (by decide)).1 (by decide)

/-- C3: a successful creation appends exactly one entry at the end, and
after any sequence of operations the length of the responses sequence is
the initial length plus the number of successful creations (merges never
add or remove entries); starting from an empty sequence it equals the
number of successful creations. -/
theorem responses_length_counts_creates (t : Thread) (ops : List ThreadOp) :
    (∀ r : ThreadResponse,
        (createThreadResponseOnCompleted t r).responses = t.responses ++ [r]) ∧
    (applyThreadOps t ops).responses.length = t.responses.length + countCreates ops ∧
    (t.responses = [] →
      (applyThreadOps t ops).responses.length = countCreates ops) := by
  have hmain : ∀ (ops : List ThreadOp) (t : Thread),
      (applyThreadOps t ops).responses.length = t.responses.length + countCreates ops := by
    intro ops
    induction ops with
    | nil => intro t; simp [applyThreadOps, countCreates]
    | cons op rest ih =>
        intro t
        cases op with
        | create r =>
            have h := ih (createThreadResponseOnCompleted t r)
            simp only [applyThreadOps, List.foldl_cons, applyThreadOp] at h ⊢
            rw [h]
            simp [createThreadResponseOnCompleted, countCreates]
            omega
        | merge u =>
            have h := ih (threadResponseOnCompleted t u)
            simp only [applyThreadOps, List.foldl_cons, applyThreadOp] at h ⊢
            rw [h]
            simp [threadResponseOnCompleted, countCreates]
  refine ⟨fun r => rfl, hmain ops t, fun hempty => ?_⟩
  rw [hmain ops t, hempty]
  simp

/-- Witness for C3 at a concrete thread and operation sequence. -/
theorem responses_length_counts_creates_witness :
    (applyThreadOps { id := 1, sql := "", responses := [] }
        [ThreadOp.create { id := 7, question := "a", status := .pending, detail := none, error := none },
         ThreadOp.merge { id := 7, question := "a", status := .finished, detail := none, error := none }]).responses.length =
      countCreates
        [ThreadOp.create { id := 7, question := "a", status := .pending, detail := none, error := none },
         ThreadOp.merge { id := 7, question := "a", status := .finished, detail := none, error := none }] :=
  (responses_length_counts_creates { id := 1, sql := "", responses := [] }
      [ThreadOp.create { id := 7, question := "a", status := .pending, detail := none, error := none },
       ThreadOp.merge { id := 7, question := "a", status := .finished, detail := none, error := none }]).2.2 rfl

/-- C9: a polled update whose id matches no entry of the responses
sequence merges to a no-op: the thread is unchanged, every entry is
unchanged, and the update is not appended. -/
theorem merge_unmatched_id_noop (t : Thread) (u : ThreadResponse)
    (h : u.id ∉ t.responses.map ThreadResponse.id) :
    threadResponseOnCompleted t u = t := by
  unfold threadResponseOnCompleted
  rw [map_replace_eq_self_of_id_not_mem t.responses u h]

/-- Witness for C9 at a concrete thread and unmatched update. -/
theorem merge_unmatched_id_noop_witness :
    threadResponseOnCompleted
        { id := 1, sql := "", responses :=
            [{ id := 7, question := "a", status := .pending, detail := none, error := none }] }
        { id := 9, question := "x", status := .finished, detail := none, error := none } =
      { id := 1, sql := "", responses :=
          [{ id := 7, question := "a", status := .pending, detail := none, error := none }] } :=
  merge_unmatched_id_noop
    { id := 1, sql := "", responses :=
        [{ id := 7, question := "a", status := .pending, detail := none, error := none }] }
    { id := 9, question := "x", status := .finished, detail := none, error := none }
    (by decide)


/-- Modelled from the spec: `getIsFinished` is imported from
`useAskPrompt`, which is outside the sources in scope; §4.3 of the
design document gives the convergence predicate as
`isFinished = status ∈ {finished, failed}`. -/
def getIsFinished : ResponseStatus → Bool
  | .finished => true
  | .failed => true
  | _ => false

/-- The search of the `useEffect [thread]` body:
`(thread?.responses || []).find(response => !getIsFinished(response.status))`. -/
def findUnfinishedResponse (responses : List ThreadResponse) : Option ThreadResponse :=
  responses.find? (fun response => !(getIsFinished response.status))

/-- The response ids for which `useEffect [thread]` starts the
convergence poll (`fetchThreadResponse` is invoked only for the found
entry, if any). -/
def pollTargets (thread : Option Thread) : List Int :=
  match findUnfinishedResponse ((thread.map Thread.responses).getD []) with
  | some r => [r.id]
  | none => []

/-- Helper: `find?` of the non-terminal predicate returns the first
entry past a finished block. -/
lemma findUnfinishedResponse_append (pre post : List ThreadResponse) (r : ThreadResponse)
    (hpre : ∀ x ∈ pre, getIsFinished x.status = true)
    (hr : getIsFinished r.status = false) :
    findUnfinishedResponse (pre ++ r :: post) = some r := by
  induction pre with
  | nil => simp [findUnfinishedResponse, List.find?_cons, hr]
  | cons a rest ih =>
      have ha : getIsFinished a.status = true := hpre a (by simp)
      have hrest : ∀ x ∈ rest, getIsFinished x.status = true :=
        fun x hx => hpre x (by simp [hx])
      simp only [List.cons_append, findUnfinishedResponse, List.find?_cons, ha,
        Bool.not_true] at ih ⊢
      exact ih hrest

/-- An observable effect of the `HomeThread` component: a call made by
one of its `useEffect` bodies or by `onSelect`. -/
inductive UIAction where
  | stopAskingPolling
  | stopThreadResponsePolling
  | stopRecommendationPolling
  | closePrompt
  | fetchThreadRecommendationQuestions (threadId : Int)
  | generateThreadRecommendationQuestions (threadId : Int)
  | setShowRecommendedQuestions (b : Bool)
  | createThreadResponseCall (threadId : Int)
  | fetchThreadResponse (responseId : Int)
  | consoleError
  deriving Repr, DecidableEq

/-- The `useEffect [threadId]` body ("stop all requests when change
thread"): stops the ask-prompt poller, the thread-response poller and
the recommendation poller, closes the prompt, and — when the new thread
id is non-null — fetches the thread recommendation questions and shows
them. -/
def onThreadIdChange (threadId : Option Int) : List UIAction :=
  [.stopAskingPolling, .stopThreadResponsePolling, .stopRecommendationPolling, .closePrompt] ++
    match threadId with
    | some tid => [.fetchThreadRecommendationQuestions tid, .setShowRecommendedQuestions true]
    | none => []

/-- The `useEffect [isFinished]` body: once the polled response reaches
a terminal status, stop the thread-response poller and show the
recommended questions. -/
def onIsFinishedChange (isFinished : Bool) : List UIAction :=
  if isFinished then [.stopThreadResponsePolling, .setShowRecommendedQuestions true] else []

/-- C4: the convergence effect polls exactly the first (earliest)
non-terminal entry of the responses sequence, and never more than one
entry at a time. -/
theorem convergence_polls_first_unfinished
    (t : Thread) (pre post : List ThreadResponse) (r : ThreadResponse)
    (hresp : t.responses = pre ++ r :: post)
    (hpre : ∀ x ∈ pre, getIsFinished x.status = true)
    (hr : getIsFinished r.status = false) :
    pollTargets (some t) = [r.id] ∧
    ∀ th : Option Thread, (pollTargets th).length ≤ 1 := by
  constructor
  · simp [pollTargets, hresp, findUnfinishedResponse_append pre post r hpre hr]
  · intro th
    unfold pollTargets
    cases findUnfinishedResponse ((th.map Thread.responses).getD []) <;> simp

/-- Witness for C4 at a concrete thread with one finished and two
unfinished responses. -/
theorem convergence_polls_first_unfinished_witness :
    pollTargets (some
      { id := 1, sql := "", responses :=
          [{ id := 7, question := "a", status := .finished, detail := none, error := none },
           { id := 8, question := "b", status := .pending, detail := none, error := none },
           { id := 9, question := "c", status := .generating, detail := none, error := none }] }) =
      [(8 : Int)] :=
  (convergence_polls_first_unfinished
    { id := 1, sql := "", responses :=
        [{ id := 7, question := "a", status := .finished, detail := none, error := none },
         { id := 8, question := "b", status := .pending, detail := none, error := none },
         { id := 9, question := "c", status := .generating, detail := none, error := none }] }
    [{ id := 7, question := "a", status := .finished, detail := none, error := none }]
    [{ id := 9, question := "c", status := .generating, detail := none, error := none }]
    { id := 8, question := "b", status := .pending, detail := none, error := none }
    rfl (by decide) (by decide)).1

/-- C5: on every change of the active thread id, the ask-prompt poller,
the thread-response poller and the recommendation poller are all
stopped; when the new id is non-null the recommendation fetch for it is
invoked, and `generateThreadRecommendationQuestions` is never invoked
by this effect. -/
theorem thread_change_stops_pollers_and_fetches_recommendations (threadId : Option Int) :
    UIAction.stopAskingPolling ∈ onThreadIdChange threadId ∧
    UIAction.stopThreadResponsePolling ∈ onThreadIdChange threadId ∧
    UIAction.stopRecommendationPolling ∈ onThreadIdChange threadId ∧
    (∀ tid : Int, threadId = some tid →
      UIAction.fetchThreadRecommendationQuestions tid ∈ onThreadIdChange threadId) ∧
    (∀ tid : Int,
      UIAction.generateThreadRecommendationQuestions tid ∉ onThreadIdChange threadId) := by
  cases threadId <;> simp [onThreadIdChange]

/-- Witness for C5 at thread id 3. -/
theorem thread_change_stops_pollers_witness :
    UIAction.fetchThreadRecommendationQuestions 3 ∈ onThreadIdChange (some 3) :=
  (thread_change_stops_pollers_and_fetches_recommendations (some 3)).2.2.2.1 3 rfl

/-- The thread of the C6 scenario, before any response is created. -/
def scenarioThread : Thread := { id := 1, sql := "", responses := [] }

/-- The optimistically created response of the C6 scenario (status
`pending`). -/
def scenarioCreated : ThreadResponse :=
  { id := 7, question := "q", status := .pending, detail := none, error := none }

/-- The polled update of the C6 scenario (status `finished`, detail
`{sql: "SELECT 1"}`). -/
def scenarioUpdate : ThreadResponse :=
  { id := 7, question := "q", status := .finished,
    detail := some { sql := "SELECT 1", description := "", steps := [], view := none },
    error := none }

/-- The thread of the C6 scenario after append and merge. -/
def scenarioFinal : Thread :=
  threadResponseOnCompleted (createThreadResponseOnCompleted scenarioThread scenarioCreated)
    scenarioUpdate

/-- C6: after creating a pending response and merging a poll result of
status finished with detail sql "SELECT 1", the responses sequence still
has length 1, its entry is finished with detail.sql "SELECT 1", and the
`useEffect [isFinished]` body stops the thread-response poller. -/
theorem scenario_create_merge_finished :
    scenarioFinal.responses.length = 1 ∧
    scenarioFinal.responses.map ThreadResponse.status = [ResponseStatus.finished] ∧
    scenarioFinal.responses.map (fun r => r.detail.map ThreadResponseDetail.sql) =
      [some "SELECT 1"] ∧
    UIAction.stopThreadResponsePolling ∈
      onIsFinishedChange (getIsFinished ResponseStatus.finished) := by
  refine ⟨rfl, rfl, rfl, ?_⟩
  simp [onIsFinishedChange, getIsFinished]

/-- A recommended question: `{question, category, sql}`
(CommonRecommendedQuestionsTask fragment). -/
structure RecommendedQuestion where
  question : String
  category : String
  sql : String
  deriving Repr, DecidableEq

/-- Recommendation task status values, from the data model of the design
document (§3: `status ∈ {not_started, generating, finished, failed}`);
the GraphQL enum itself is defined outside the sources in scope. -/
inductive RecommendedQuestionsTaskStatus where
  | notStarted
  | generating
  | finished
  | failed
  deriving Repr, DecidableEq

/-- RecommendedQuestionsTask: `{status, questions, error}`
(CommonRecommendedQuestionsTask fragment). -/
structure RecommendedQuestionsTask where
  status : RecommendedQuestionsTaskStatus
  questions : List RecommendedQuestion
  error : Option CommonError
  deriving Repr, DecidableEq

/-- Modelled from the spec: `isRecommendedFinished` is imported from
`useAskPrompt`, which is outside the sources in scope; §4.4 of the
design document gives the polling exit predicate as
`isFinished = status ∈ {finished, failed}`.  The argument is optional
because the source applies it to `recommendedQuestions?.status`. -/
def isRecommendedFinished : Option RecommendedQuestionsTaskStatus → Bool
  | some .finished => true
  | some .failed => true
  | _ => false

/-- The `useEffect [recommendedQuestions]` body: once the polled
recommendation task reaches a terminal status, stop the recommendation
poller. -/
def onRecommendedQuestionsChange (recommendedQuestions : Option RecommendedQuestionsTask) :
    List UIAction :=
  if isRecommendedFinished (recommendedQuestions.map RecommendedQuestionsTask.status) then
    [.stopRecommendationPolling]
  else []

/-- A fixed-interval poll run: given the stream of states the backend
would answer with on successive ticks, the list of states actually
fetched — polling stops right after the first state on which the
stop predicate fires (the `useEffect` body issues `stopPolling`). -/
def pollFetches {α : Type} (shouldStop : α → Bool) : List α → List α
  | [] => []
  | s :: rest => if shouldStop s then [s] else s :: pollFetches shouldStop rest

/-- Whether observing `task` makes the `useEffect [recommendedQuestions]`
body stop the recommendation poller. -/
def recommendationShouldStop (task : RecommendedQuestionsTask) : Bool :=
  decide (UIAction.stopRecommendationPolling ∈ onRecommendedQuestionsChange (some task))

/-- The states actually fetched by the recommendation poller on a given
answer stream. -/
def recommendationPollFetches (stream : List RecommendedQuestionsTask) :
    List RecommendedQuestionsTask :=
  pollFetches recommendationShouldStop stream

/-- Helper: the recommendation poller's stop condition coincides with
the terminal-status predicate. -/
lemma recommendationShouldStop_eq (task : RecommendedQuestionsTask) :
    recommendationShouldStop task = isRecommendedFinished (some task.status) := by
  cases h : isRecommendedFinished (some task.status) <;>
    simp [recommendationShouldStop, onRecommendedQuestionsChange, Option.map, h]

/-- Helper: every fetched state except possibly the last one does not
satisfy the stop predicate. -/
lemma pollFetches_dropLast {α : Type} (shouldStop : α → Bool) :
    ∀ l : List α, ∀ x ∈ (pollFetches shouldStop l).dropLast, shouldStop x = false := by
  intro l
  induction l with
  | nil => intro x hx; simp [pollFetches] at hx
  | cons s rest ih =>
      intro x hx
      cases hs : shouldStop s with
      | true => rw [pollFetches, if_pos hs] at hx; simp at hx
      | false =>
          rw [pollFetches, if_neg (by simp [hs])] at hx
          cases hpr : pollFetches shouldStop rest with
          | nil => rw [hpr] at hx; simp at hx
          | cons y ys =>
              rw [hpr] at hx
              simp only [List.dropLast, List.mem_cons] at hx
              rcases hx with rfl | hx
              · exact hs
              · exact ih x (by rw [hpr]; simpa [List.dropLast] using hx)

/-- Helper: if the poll run is shorter than the answer stream, polling
stopped, and the last fetched state satisfies the stop predicate. -/
lemma pollFetches_getLast_of_lt {α : Type} (shouldStop : α → Bool) :
    ∀ l : List α, (pollFetches shouldStop l).length < l.length →
      ∃ x, (pollFetches shouldStop l).getLast? = some x ∧ shouldStop x = true := by
  intro l
  induction l with
  | nil => intro h; simp [pollFetches] at h
  | cons s rest ih =>
      intro h
      cases hs : shouldStop s with
      | true => exact ⟨s, by rw [pollFetches, if_pos hs]; rfl, hs⟩
      | false =>
          rw [pollFetches, if_neg (by simp [hs])] at h ⊢
          have hlen : (pollFetches shouldStop rest).length < rest.length := by
            simp only [List.length_cons] at h
            omega
          obtain ⟨x, hx, hfx⟩ := ih hlen
          refine ⟨x, ?_, hfx⟩
          cases hpr : pollFetches shouldStop rest with
          | nil => rw [hpr] at hx; simp at hx
          | cons y ys =>
              rw [hpr] at hx
              rw [List.getLast?_cons_cons]
              exact hx

/-- Helper: while no state satisfies the stop predicate, the poller
fetches the whole stream (it never stops early). -/
lemma pollFetches_eq_self_of_no_stop {α : Type} (shouldStop : α → Bool) :
    ∀ l : List α, (∀ x ∈ l, shouldStop x = false) → pollFetches shouldStop l = l := by
  intro l
  induction l with
  | nil => intro _; rfl
  | cons s rest ih =>
      intro h
      have hs := h s (by simp)
      rw [pollFetches, if_neg (by simp [hs]), ih (fun x hx => h x (by simp [hx]))]

/-- C7: the recommendation poller stops exactly on a terminal status:
the stop effect fires iff the observed status is finished or failed;
every fetched state before the last is non-terminal (no fetch is issued
after a terminal observation); if the poller stopped before exhausting
the answer stream then the last observed status was terminal; and while
all answers are non-terminal the poller keeps fetching. -/
theorem recommendation_polling_stops_exactly_on_terminal
    (stream : List RecommendedQuestionsTask) :
    (∀ task : RecommendedQuestionsTask,
        UIAction.stopRecommendationPolling ∈ onRecommendedQuestionsChange (some task) ↔
          isRecommendedFinished (some task.status) = true) ∧
    (∀ task ∈ (recommendationPollFetches stream).dropLast,
        isRecommendedFinished (some task.status) = false) ∧
    ((recommendationPollFetches stream).length < stream.length →
      ∃ task, (recommendationPollFetches stream).getLast? = some task ∧
        isRecommendedFinished (some task.status) = true) ∧
    ((∀ task ∈ stream, isRecommendedFinished (some task.status) = false) →
      recommendationPollFetches stream = stream) := by
  refine ⟨?_, ?_, ?_, ?_⟩
  · intro task
    cases h : isRecommendedFinished (some task.status) <;>
      simp [onRecommendedQuestionsChange, Option.map, h]
  · intro task htask
    have := pollFetches_dropLast recommendationShouldStop stream task htask
    rwa [recommendationShouldStop_eq] at this
  · intro hlen
    obtain ⟨task, hlast, hstop⟩ := pollFetches_getLast_of_lt recommendationShouldStop stream hlen
    exact ⟨task, hlast, by rwa [recommendationShouldStop_eq] at hstop⟩
  · intro hall
    exact pollFetches_eq_self_of_no_stop recommendationShouldStop stream
      (fun x hx => by rw [recommendationShouldStop_eq]; exact hall x hx)

/-- Witness for C7 on a concrete answer stream whose second state is
terminal: the poller stops there with the terminal state observed last. -/
theorem recommendation_polling_witness :
    ∃ task,
      (recommendationPollFetches
          [{ status := .generating, questions := [], error := none },
           { status := .finished, questions := [], error := none },
           { status := .generating, questions := [], error := none }]).getLast? = some task ∧
        isRecommendedFinished (some task.status) = true :=
  (recommendation_polling_stops_exactly_on_terminal
      [{ status := .generating, questions := [], error := none },
       { status := .finished, questions := [], error := none },
       { status := .generating, questions := [], error := none }]).2.2.1 (by decide)

/-- The `onSelect` handler: stops the ask-prompt poller, then awaits
`createThreadResponse`.  When the creation call succeeds, its
`onCompleted` appends the response, and the handler goes on to trigger
recommendation generation, hide the recommended questions, start the
convergence poll for the new response and fetch the thread
recommendations.  When the creation call throws, the `catch` block logs
to the console and none of the subsequent calls run, so the thread is
unchanged and the handler returns normally. -/
def onSelect (t : Thread) (createResult : Except CommonError ThreadResponse) :
    Thread × List UIAction :=
  match createResult with
  | .error _ => (t, [.stopAskingPolling, .createThreadResponseCall t.id, .consoleError])
  | .ok r =>
      (createThreadResponseOnCompleted t r,
       [.stopAskingPolling, .createThreadResponseCall t.id,
        .generateThreadRecommendationQuestions t.id, .setShowRecommendedQuestions false,
        .fetchThreadResponse r.id, .fetchThreadRecommendationQuestions t.id])

/-- C8: when the creation call fails, no entry is appended (the thread
is unchanged), the convergence poll is never started for any response,
the error is only logged, and no sibling poller is stopped by the
failure path (the handler returns normally instead of aborting). -/
theorem failed_creation_never_polls (t : Thread) (e : CommonError) :
    (onSelect t (Except.error e)).1 = t ∧
    (∀ rid : Int, UIAction.fetchThreadResponse rid ∉ (onSelect t (Except.error e)).2) ∧
    UIAction.consoleError ∈ (onSelect t (Except.error e)).2 ∧
    UIAction.stopThreadResponsePolling ∉ (onSelect t (Except.error e)).2 ∧
    UIAction.stopRecommendationPolling ∉ (onSelect t (Except.error e)).2 := by
  simp [onSelect]

/-- Witness for C8 at a concrete thread and error. -/
theorem failed_creation_never_polls_witness :
    UIAction.consoleError ∈
      (onSelect { id := 1, sql := "", responses := [] }
        (Except.error { code := "", shortMessage := "", message := "boom", stacktrace := "" })).2 :=
  (failed_creation_never_polls { id := 1, sql := "", responses := [] }
    { code := "", shortMessage := "", message := "boom", stacktrace := "" }).2.2.1

/-- Accumulating decimal parser over a character list: `none` as soon
as a non-digit character appears. -/
def parseNatDigitsAux (acc : Nat) : List Char → Option Nat
  | [] => some acc
  | c :: cs => if c.isDigit then parseNatDigitsAux (acc * 10 + (c.toNat - 48)) cs else none

/-- Parse an optionally negated decimal integer string; `none` on the
empty string, a bare minus sign, or any non-digit character. -/
def parseIntString (s : String) : Option Int :=
  match s.toList with
  | [] => none
  | '-' :: cs =>
      if cs = [] then none else (parseNatDigitsAux 0 cs).map (fun n => -(n : Int))
  | cs => (parseNatDigitsAux 0 cs).map (fun n => (n : Int))

/-- JavaScript `Number` applied to an optional route parameter,
restricted to the integer-valued strings route parameters take: a
missing parameter gives NaN (modelled as `none`), the empty string gives
0, an integer string parses, and any other string gives NaN. -/
def jsNumberOfParam : Option String → Option Int
  | none => none
  | some s => if s.isEmpty then some 0 else parseIntString s

/-- The derivation `Number(params?.id) || null` of the active thread id:
a falsy number (NaN or 0) yields null. -/
def threadIdOfParams (p : Option String) : Option Int :=
  match jsNumberOfParam p with
  | none => none
  | some n => if n = 0 then none else some n

/-- The `skip` option of `useThreadQuery`: `skip: threadId === null`. -/
def useThreadQuerySkipped (threadId : Option Int) : Bool :=
  threadId.isNone

/-- C10: a missing, non-numeric or zero route parameter yields a null
thread id, under which the thread query is skipped; a non-zero numeric
parameter yields that number. -/
theorem threadId_null_on_invalid_param_skips_query (p : Option String) :
    (jsNumberOfParam p = none ∨ jsNumberOfParam p = some 0 →
      threadIdOfParams p = none ∧ useThreadQuerySkipped (threadIdOfParams p) = true) ∧
    (∀ n : Int, jsNumberOfParam p = some n → n ≠ 0 → threadIdOfParams p = some n) := by
  constructor
  · rintro (h | h) <;> simp [threadIdOfParams, h, useThreadQuerySkipped]
  · intro n h hn
    simp [threadIdOfParams, h, hn]

/-- Witness for C10 at the non-numeric route parameter "abc". -/
theorem threadId_null_witness :
    threadIdOfParams (some "abc") = none ∧
      useThreadQuerySkipped (threadIdOfParams (some "abc")) = true :=
  (threadId_null_on_invalid_param_skips_query (some "abc")).1 (Or.inl (by decide))

/-- Helper: merging an update whose id matches no entry leaves the
thread unchanged. -/
lemma threadResponseOnCompleted_self_of_id_not_mem (t : Thread) (u : ThreadResponse)
    (h : u.id ∉ t.responses.map ThreadResponse.id) :
    threadResponseOnCompleted t u = t := by
  unfold threadResponseOnCompleted
  rw [map_replace_eq_self_of_id_not_mem t.responses u h]

/-- The component state relevant to context switches: the active thread
id and the thread held by the thread-query cache. -/
structure HomeState where
  threadId : Option Int
  thread : Option Thread
  deriving Repr, DecidableEq

/-- A context switch: the route's thread id changes and the thread query
re-resolves for the new id (or to nothing when no conversation is
selected). -/
def applySwitchThread (_s : HomeState) (tid : Option Int) (fetched : Option Thread) : HomeState :=
  { threadId := tid, thread := fetched }

/-- Arrival of a (possibly stale, in-flight before a switch) polled
thread-response result: the `onCompleted` of `useThreadResponseLazyQuery`
merges it by id into whatever thread the cache currently holds — there
is no check of the active thread id in the callback. -/
def applyThreadResponseArrival (s : HomeState) (u : ThreadResponse) : HomeState :=
  { s with thread := s.thread.map (fun t => threadResponseOnCompleted t u) }

/-- C1 as stated: an update belonging to a different (previous)
conversation is never applied to the new conversation's state, i.e.
merging it leaves the new thread unchanged. -/
def staleUpdatesAlwaysDiscarded : Prop :=
  ∀ (prevThread newThread : Thread) (u : ThreadResponse),
    prevThread.id ≠ newThread.id →
    u.id ∈ prevThread.responses.map ThreadResponse.id →
    threadResponseOnCompleted newThread u = newThread

/-- C1 counterexample: the merge callback validates nothing but the
response id.  With previous thread 1 holding response id 7 and new
thread 2 also holding a response id 7, the stale update for thread 1's
response is applied to thread 2's entry (its status flips from pending
to finished), so the claim as stated is false. -/
theorem stale_update_can_overwrite_matching_id : ¬ staleUpdatesAlwaysDiscarded := by
  intro h
  have hc := h
    { id := 1, sql := "", responses :=
        [{ id := 7, question := "a", status := .generating, detail := none, error := none }] }
    { id := 2, sql := "", responses :=
        [{ id := 7, question := "b", status := .pending, detail := none, error := none }] }
    { id := 7, question := "a", status := .finished, detail := none, error := none }
    (by decide) (by decide)
  exact absurd hc (by decide)

/-- C1 amended: after a context switch, a stale polled result is merged
by id into the currently active thread with no conversation-id check;
it leaves the new conversation's state unchanged exactly because its
response id matches no entry of the new thread's responses sequence
(which holds when response ids are disjoint across conversations). -/
theorem stale_update_discarded_when_id_absent
    (s : HomeState) (tid : Option Int) (fetched : Option Thread) (u : ThreadResponse)
    (h : ∀ t : Thread, fetched = some t → u.id ∉ t.responses.map ThreadResponse.id) :
    applyThreadResponseArrival (applySwitchThread s tid fetched) u =
      applySwitchThread s tid fetched := by
  cases fetched with
  | none => rfl
  | some t =>
      simp only [applySwitchThread, applyThreadResponseArrival, Option.map]
      rw [threadResponseOnCompleted_self_of_id_not_mem t u (h t rfl)]

/-- Witness for the amended C1: a switch to thread 2 (whose only
response has id 9) followed by the arrival of thread 1's stale update
for response id 7 leaves the state unchanged. -/
theorem stale_update_discarded_when_id_absent_witness :
    applyThreadResponseArrival
        (applySwitchThread
          { threadId := some 1,
            thread := some { id := 1, sql := "", responses :=
              [{ id := 7, question := "a", status := .generating, detail := none, error := none }] } }
          (some 2)
          (some { id := 2, sql := "", responses :=
            [{ id := 9, question := "b", status := .pending, detail := none, error := none }] }))
        { id := 7, question := "a", status := .finished, detail := none, error := none } =
      applySwitchThread
        { threadId := some 1,
          thread := some { id := 1, sql := "", responses :=
            [{ id := 7, question := "a", status := .generating, detail := none, error := none }] } }
        (some 2)
        (some { id := 2, sql := "", responses :=
          [{ id := 9, question := "b", status := .pending, detail := none, error := none }] }) :=
  stale_update_discarded_when_id_absent
    { threadId := some 1,
      thread := some { id := 1, sql := "", responses :=
        [{ id := 7, question := "a", status := .generating, detail := none, error := none }] } }
    (some 2)
    (some { id := 2, sql := "", responses :=
      [{ id := 9, question := "b", status := .pending, detail := none, error := none }] })
    { id := 7, question := "a", status := .finished, detail := none, error := none }
    (by intro t ht; injection ht with h2; subst h2; decide)
